import Mathlib

set_option autoImplicit false

/-!
Shallow embedding of the five gRPC client classes of DAI-grpc-client-python
(src/image_harmony, src/image_renderer, src/service_coordinator,
src/target_detection, src/target_tracking).

Remote calls are modelled by passing the outcome of the single stub
invocation as an explicit argument of type Except String ρ: .ok resp is a
delivered response, .error e is a grpc.RpcError carrying message e.  Each
embedded method returns, besides its Python return value (an
Except String α when the method can raise), the list of request messages
it actually handed to the stub, so the number and content of remote
invocations is part of the formal model.  Python floats are carried as
Float values (never computed on), Python bytes as List Nat, Python set as
Finset, and Python dict as an insertion-ordered association list with
last-writer-wins update (pyDictSet / pyDictGet).
-/

/-- Python dict update d[k] = v: replaces the value at an existing key in
place, else appends the new binding at the end. -/
def pyDictSet {α β : Type} [DecidableEq α] : List (α × β) → α → β → List (α × β)
  | [], k, v => [(k, v)]
  | p :: d, k, v => if p.1 = k then (k, v) :: d else p :: pyDictSet d k v

/-- Python dict read d[k], as an Option. -/
def pyDictGet {α β : Type} [DecidableEq α] : List (α × β) → α → Option β
  | [], _ => none
  | p :: d, k => if p.1 = k then some p.2 else pyDictGet d k

/-- Python newline-join of a list of lines. -/
def joinLines : List String → String
  | [] => ""
  | [s] => s
  | s :: rest => s ++ "\x0a" ++ joinLines rest

/-- The status envelope carried by every response message
(response.code and response.message). -/
structure ResponseMeta where
  code : Int
  message : String
deriving DecidableEq

/-- The OpenCV constant cv2.IMWRITE_JPEG_QUALITY (value 1). -/
def IMWRITE_JPEG_QUALITY : Int := 1

/-- A string contains another as a contiguous substring. -/
def strContains (s sub : String) : Prop := sub.data <:+: s.data

/-! ## Shared image messages (image_harmony.proto and image_renderer.proto
have the same CustomImageRequest / image response layout). -/

/-- CustomImageRequest message.  Proto3 fields left unset at a call site
take the defaults 0 / false / empty. -/
structure CustomImageRequest where
  imageId : Int
  noImageBuffer : Bool
  format : String
  params : List Int
  expectedW : Int
  expectedH : Int
deriving DecidableEq

structure ImageResponse where
  imageId : Int
  buffer : List Nat
  width : Int
  height : Int
deriving DecidableEq

structure GetImageByImageIdResponse where
  response : ResponseMeta
  imageResponse : ImageResponse
deriving DecidableEq

/-! ## src/image_harmony/image_harmony_client.py -/

structure ConnectImageLoaderRequest where
  loaderArgsHash : Int
deriving DecidableEq

structure ConnectImageLoaderResponse where
  response : ResponseMeta
  connectionId : Int
deriving DecidableEq

structure DisconnectImageLoaderRequest where
  connectionId : Int
deriving DecidableEq

structure DisconnectImageLoaderResponse where
  response : ResponseMeta
deriving DecidableEq

structure HarmonyGetImageByImageIdRequest where
  connectionId : Int
  imageRequest : CustomImageRequest
deriving DecidableEq

/-- State of an ImageHarmonyClient: ip, port and __connection_id. -/
structure ImageHarmonyClient where
  ip : String
  port : String
  connectionId : Int
deriving DecidableEq

/-- __init__ (lines 20-34): opens the channel and sets __connection_id = 0. -/
def ImageHarmonyClient.init (ip port : String) : ImageHarmonyClient :=
  ⟨ip, port, 0⟩

/-- The newline-joined message of the exception raised by
connect_image_loader on a non-200 code (lines 48-58). -/
def ImageHarmonyClient.connectErrMsg (c : ImageHarmonyClient)
    (loader_args_hash : Int) (m : String) : String :=
  joinLines
    ["Failed to connect image loader",
     "Loader args hash: " ++ toString loader_args_hash,
     "Image Hramony gRPC Info:",
     "   ip:   " ++ c.ip,
     "   port: " ++ c.port,
     "Error:",
     m]

/-- connect_image_loader (lines 36-62).  Returns (outcome, post-state,
requests sent).  On grpc.RpcError the source raises (a string, which in
Python 3 itself raises TypeError, but in every case an exception
propagates and self is not mutated). -/
def ImageHarmonyClient.connect_image_loader (c : ImageHarmonyClient)
    (loader_args_hash : Int) (call : Except String ConnectImageLoaderResponse) :
    Except String Unit × ImageHarmonyClient × List ConnectImageLoaderRequest :=
  let request : ConnectImageLoaderRequest := ⟨loader_args_hash⟩
  match call with
  | .error e =>
      (.error ("gRPC error in connect_image_loader: \x0a" ++ e), c, [request])
  | .ok response =>
      if response.response.code ≠ 200 then
        (.error (c.connectErrMsg loader_args_hash response.response.message), c, [request])
      else
        (.ok (), { c with connectionId := response.connectionId }, [request])

/-- The newline-joined message of the exception raised by
disconnect_image_loader on a non-200 code (lines 75-84). -/
def ImageHarmonyClient.disconnectErrMsg (c : ImageHarmonyClient) (m : String) : String :=
  joinLines
    ["Failed to disconnect image loader",
     "Image Hramony gRPC Info:",
     "   ip:   " ++ c.ip,
     "   port: " ++ c.port,
     "Error:",
     m]

/-- disconnect_image_loader (lines 64-89).  When __connection_id is 0 the
method returns at once, sending nothing.  On success it resets
__connection_id to 0.  (The stray success value True, message of the
source is modelled as .ok () like the early-return None.) -/
def ImageHarmonyClient.disconnect_image_loader (c : ImageHarmonyClient)
    (call : Except String DisconnectImageLoaderResponse) :
    Except String Unit × ImageHarmonyClient × List DisconnectImageLoaderRequest :=
  if c.connectionId = 0 then
    (.ok (), c, [])
  else
    let request : DisconnectImageLoaderRequest := ⟨c.connectionId⟩
    match call with
    | .error e =>
        (.error ("gRPC error in disconnect_image_loader: \x0a" ++ e), c, [request])
    | .ok response =>
        if response.response.code ≠ 200 then
          (.error (c.disconnectErrMsg response.response.message), c, [request])
        else
          (.ok (), { c with connectionId := 0 }, [request])

/-- The newline-joined message of the exception raised by
get_image_buffer_by_image_id on a non-200 code (lines 127-136). -/
def ImageHarmonyClient.bufferErrMsg (c : ImageHarmonyClient) (m : String) : String :=
  joinLines
    ["Failed to retrieve image buffer",
     "Image Hramony gRPC Info:",
     "   ip:   " ++ c.ip,
     "   port: " ++ c.port,
     "Error:",
     m]

/-- get_image_buffer_by_image_id (lines 91-141): builds the request with
the stored connection id, sends it, raises on a non-200 code, else
returns (response imageId, response buffer). -/
def ImageHarmonyClient.get_image_buffer_by_image_id (c : ImageHarmonyClient)
    (image_id width height : Int) (format : String) (params : List Int)
    (call : Except String GetImageByImageIdResponse) :
    Except String (Int × List Nat) × List HarmonyGetImageByImageIdRequest :=
  let request : HarmonyGetImageByImageIdRequest :=
    ⟨c.connectionId, ⟨image_id, false, format, params, width, height⟩⟩
  match call with
  | .error e =>
      (.error ("gRPC error in get_image_buffer_by_image_id: \x0a" ++ e), [request])
  | .ok response =>
      if response.response.code ≠ 200 then
        (.error (c.bufferErrMsg response.response.message), [request])
      else
        (.ok (response.imageResponse.imageId, response.imageResponse.buffer), [request])

/-- The def-site defaults of get_image_buffer_by_image_id (line 96-97):
format defaults to .jpg and params to [cv2.IMWRITE_JPEG_QUALITY, 80].
This is the call form that omits both optional arguments. -/
def ImageHarmonyClient.get_image_buffer_by_image_id_defaulted (c : ImageHarmonyClient)
    (image_id width height : Int)
    (call : Except String GetImageByImageIdResponse) :
    Except String (Int × List Nat) × List HarmonyGetImageByImageIdRequest :=
  c.get_image_buffer_by_image_id image_id width height ".jpg" [IMWRITE_JPEG_QUALITY, 80] call

/-- The newline-joined message of the exception raised by
get_image_by_image_id when cv2.imdecode fails (lines 166-173). -/
def ImageHarmonyClient.decodeErrMsg (c : ImageHarmonyClient) (image_id : Int) : String :=
  joinLines
    ["Failed to decode image for image ID: " ++ toString image_id,
     "Image Hramony gRPC Info:",
     "   ip:   " ++ c.ip,
     "   port: " ++ c.port]

/-- get_image_by_image_id (lines 143-175): one remote call through
get_image_buffer_by_image_id, then a purely local cv2.imdecode (modelled
by the oracle imdecode; Img is the decoded-image type). -/
def ImageHarmonyClient.get_image_by_image_id {Img : Type} (c : ImageHarmonyClient)
    (image_id width height : Int) (format : String) (params : List Int)
    (call : Except String GetImageByImageIdResponse)
    (imdecode : List Nat → Option Img) :
    Except String (Int × Img) × List HarmonyGetImageByImageIdRequest :=
  let r := c.get_image_buffer_by_image_id image_id width height format params call
  match r.1 with
  | .error e => (.error e, r.2)
  | .ok (image_id2, buffer) =>
      match imdecode buffer with
      | none => (.error (c.decodeErrMsg image_id2), r.2)
      | some image => (.ok (image_id2, image), r.2)

/-- The newline-joined message of the exception raised by
get_image_size_by_image_id on a non-200 code (lines 198-207). -/
def ImageHarmonyClient.sizeErrMsg (c : ImageHarmonyClient) (m : String) : String :=
  joinLines
    ["Failed to retrieve image size",
     "Image Hramony gRPC Info:",
     "   ip:   " ++ c.ip,
     "   port: " ++ c.port,
     "Error:",
     m]

/-- get_image_size_by_image_id (lines 178-213): request sets only imageId
and noImageBuffer=True (remaining proto3 fields default); returns
(width, height) on success, raises otherwise. -/
def ImageHarmonyClient.get_image_size_by_image_id (c : ImageHarmonyClient)
    (image_id : Int) (call : Except String GetImageByImageIdResponse) :
    Except String (Int × Int) × List HarmonyGetImageByImageIdRequest :=
  let request : HarmonyGetImageByImageIdRequest :=
    ⟨c.connectionId, ⟨image_id, true, "", [], 0, 0⟩⟩
  match call with
  | .error e =>
      (.error ("gRPC error in get_image_size_by_image_id: \x0a" ++ e), [request])
  | .ok response =>
      if response.response.code ≠ 200 then
        (.error (c.sizeErrMsg response.response.message), [request])
      else
        (.ok (response.imageResponse.width, response.imageResponse.height), [request])

/-! ## src/image_renderer/image_renderer_client.py

The renderer client object holds no state beyond the channel, so its
methods are embedded as plain functions in the ImageRendererClient
namespace. -/

structure RendererGetImageByImageIdRequest where
  taskId : Int
  imageRequest : CustomImageRequest
deriving DecidableEq

/-- get_image_buffer_by_image_id (lines 30-74): on a non-200 code or any
exception it logs and returns the sentinel (0, empty bytes). -/
def ImageRendererClient.get_image_buffer_by_image_id
    (task_id image_id width height : Int) (format : String) (params : List Int)
    (call : Except String GetImageByImageIdResponse) :
    (Int × List Nat) × List RendererGetImageByImageIdRequest :=
  let request : RendererGetImageByImageIdRequest :=
    ⟨task_id, ⟨image_id, false, format, params, width, height⟩⟩
  match call with
  | .error _ => ((0, []), [request])
  | .ok response =>
      if response.response.code ≠ 200 then
        ((0, []), [request])
      else
        ((response.imageResponse.imageId, response.imageResponse.buffer), [request])

/-- The def-site defaults of the renderer get_image_buffer_by_image_id
(lines 36-37): format .jpg, params [cv2.IMWRITE_JPEG_QUALITY, 80].
This is the call form that omits both optional arguments. -/
def ImageRendererClient.get_image_buffer_by_image_id_defaulted
    (task_id image_id width height : Int)
    (call : Except String GetImageByImageIdResponse) :
    (Int × List Nat) × List RendererGetImageByImageIdRequest :=
  ImageRendererClient.get_image_buffer_by_image_id task_id image_id width height
    ".jpg" [IMWRITE_JPEG_QUALITY, 80] call

/-- get_image_by_image_id (lines 76-113): one remote call through
get_image_buffer_by_image_id; an empty buffer or a failed decode yields a
sentinel with an empty image (np.array of nothing, modelled by the
parameter empty_image). -/
def ImageRendererClient.get_image_by_image_id {Img : Type} (empty_image : Img)
    (task_id image_id width height : Int) (format : String) (params : List Int)
    (call : Except String GetImageByImageIdResponse)
    (imdecode : List Nat → Option Img) :
    (Int × Img) × List RendererGetImageByImageIdRequest :=
  let r := ImageRendererClient.get_image_buffer_by_image_id
    task_id image_id width height format params call
  let image_id2 := r.1.1
  let buffer := r.1.2
  if buffer = [] then ((0, empty_image), r.2)
  else
    match imdecode buffer with
    | none => ((image_id2, empty_image), r.2)
    | some image => ((image_id2, image), r.2)

/-- Field names of the renderer GetImageByImageIdRequest message, as
exercised by the working call site at lines 54-55 (taskId=, imageRequest=). -/
def rendererGetImageRequestFieldNames : List String :=
  ["taskId", "imageRequest"]

/-- Keyword names used when get_image_size_by_image_id builds its request
at lines 127-133: the task id is passed under the keyword task_id, not
taskId. -/
def rendererSizeCallKeywords : List String :=
  ["task_id", "imageRequest"]

/-- A Python protobuf message constructor accepts a keyword iff it names a
field of the message; an unknown keyword raises ValueError. -/
def pbKeywordsAccepted (fields kws : List String) : Bool :=
  kws.all (fun k => fields.contains k)

/-- get_image_size_by_image_id (lines 115-144).  The request construction
at line 127 passes the keyword task_id to a message whose field is named
taskId (the name used by the sibling call at line 55), so the protobuf
constructor raises ValueError inside the try block, before the stub is
invoked; the except clause logs and returns (0, 0). -/
def ImageRendererClient.get_image_size_by_image_id (task_id image_id : Int)
    (call : Except String GetImageByImageIdResponse) :
    (Int × Int) × List RendererGetImageByImageIdRequest :=
  if pbKeywordsAccepted rendererGetImageRequestFieldNames rendererSizeCallKeywords then
    let request : RendererGetImageByImageIdRequest :=
      ⟨task_id, ⟨image_id, true, "", [], 0, 0⟩⟩
    match call with
    | .error _ => ((0, 0), [request])
    | .ok response =>
        if response.response.code ≠ 200 then
          ((0, 0), [request])
        else
          ((response.imageResponse.width, response.imageResponse.height), [request])
  else
    ((0, 0), [])

/-! ## src/service_coordinator/service_coordinator_client.py

The coordinator client object holds no state beyond the channel, so its
methods are embedded as plain functions in the ServiceCoordinatorClient
namespace. -/

structure InformPreviousServiceInfoRequest where
  taskId : String
  preServiceName : String
  preServiceIp : String
  preServicePort : String
  args : List (String × String)
deriving DecidableEq

structure InformCurrentServiceInfoRequest where
  taskId : String
  args : List (String × String)
deriving DecidableEq

structure StartRequest where
  taskId : String
deriving DecidableEq

structure StopRequest where
  taskId : String
deriving DecidableEq

/-- Response carrying only the status envelope (informPreviousServiceInfo,
start, stop). -/
structure CoordBasicResponse where
  response : ResponseMeta
deriving DecidableEq

/-- Response of informCurrentServiceInfo: envelope plus key/value args. -/
structure InformCurrentServiceInfoResponse where
  response : ResponseMeta
  args : List (String × String)
deriving DecidableEq

/-- inform_previous_service_info (lines 26-60): the args dict is copied
into the request; a non-200 code or an RpcError yields False. -/
def ServiceCoordinatorClient.inform_previous_service_info
    (task_id pre_service_name pre_service_ip pre_service_port : String)
    (args : List (String × String))
    (call : Except String CoordBasicResponse) :
    Bool × List InformPreviousServiceInfoRequest :=
  let request : InformPreviousServiceInfoRequest :=
    ⟨task_id, pre_service_name, pre_service_ip, pre_service_port, args⟩
  match call with
  | .error _ => (false, [request])
  | .ok response =>
      if response.response.code ≠ 200 then (false, [request])
      else (true, [request])

/-- inform_current_service_info (lines 62-104): on success returns True
and the response args collected into a fresh dict; a non-200 code or an
RpcError yields (False, empty dict). -/
def ServiceCoordinatorClient.inform_current_service_info
    (task_id : String) (args : List (String × String))
    (call : Except String InformCurrentServiceInfoResponse) :
    (Bool × List (String × String)) × List InformCurrentServiceInfoRequest :=
  let request : InformCurrentServiceInfoRequest := ⟨task_id, args⟩
  match call with
  | .error _ => ((false, []), [request])
  | .ok response =>
      if response.response.code ≠ 200 then ((false, []), [request])
      else
        ((true, response.args.foldl (fun d a => pyDictSet d a.1 a.2) []), [request])

/-- start (lines 106-126): a non-200 code or any exception yields False. -/
def ServiceCoordinatorClient.start (task_id : String)
    (call : Except String CoordBasicResponse) : Bool × List StartRequest :=
  let request : StartRequest := ⟨task_id⟩
  match call with
  | .error _ => (false, [request])
  | .ok response =>
      if response.response.code ≠ 200 then (false, [request])
      else (true, [request])

/-- stop (lines 128-148): a non-200 code or any exception yields False. -/
def ServiceCoordinatorClient.stop (task_id : String)
    (call : Except String CoordBasicResponse) : Bool × List StopRequest :=
  let request : StopRequest := ⟨task_id⟩
  match call with
  | .error _ => (false, [request])
  | .ok response =>
      if response.response.code ≠ 200 then (false, [request])
      else (true, [request])

/-! ## src/target_detection/target_detection_client.py -/

/-- TargetDetectionClient.Filter (lines 16-64): a Python set of label ids. -/
structure DetectionFilter where
  filter : Finset Int
deriving DecidableEq

/-- Filter.__init__ (lines 20-27): set(range(label_cnt)). -/
def DetectionFilter.init (label_cnt : Nat) : DetectionFilter :=
  ⟨(Finset.range label_cnt).image (fun n : Nat => (n : Int))⟩

/-- Filter.add (lines 29-36). -/
def DetectionFilter.add (f : DetectionFilter) (label_id : Int) : DetectionFilter :=
  ⟨insert label_id f.filter⟩

/-- Filter.remove (lines 38-46): removes only when present. -/
def DetectionFilter.remove (f : DetectionFilter) (label_id : Int) : DetectionFilter :=
  ⟨f.filter.erase label_id⟩

/-- Filter.clear (lines 48-52). -/
def DetectionFilter.clear (f : DetectionFilter) : DetectionFilter :=
  ⟨∅⟩

/-- Filter.check (lines 54-64): membership test. -/
def DetectionFilter.check (f : DetectionFilter) (label_id : Int) : Bool :=
  decide (label_id ∈ f.filter)

/-- TargetDetectionClient.Result (lines 66-96). -/
structure DetResult where
  label_id : Int
  x1 : Float
  y1 : Float
  x2 : Float
  y2 : Float
  confidence : Float

/-- One element of response.results of getResultIndexByImageId. -/
structure DetResultMsg where
  labelId : Int
  x1 : Float
  y1 : Float
  x2 : Float
  y2 : Float
  confidence : Float

/-- The Result constructed from a response element at lines 212-213. -/
def detResultOfMsg (r : DetResultMsg) : DetResult :=
  ⟨r.labelId, r.x1, r.y1, r.x2, r.y2, r.confidence⟩

structure GetResultMappingTableRequest where
  taskId : Int
deriving DecidableEq

structure GetResultMappingTableResponse where
  response : ResponseMeta
  labels : List String
deriving DecidableEq

structure GetResultIndexByImageIdRequest where
  taskId : Int
  imageId : Int
  wait : Bool
deriving DecidableEq

structure GetResultIndexByImageIdResponse where
  response : ResponseMeta
  results : List DetResultMsg

/-- The dict comprehension at line 181: enumerate(response.labels) as a
dict from index to label. -/
def mappingTableOfLabels (labels : List String) : List (Int × String) :=
  labels.enum.map (fun p => ((p.1 : Int), p.2))

/-- State of a TargetDetectionClient: ip, port, __task_id,
__result_mapping_table and filter. -/
structure TargetDetectionClient where
  ip : String
  port : String
  task_id : Int
  result_mapping_table : List (Int × String)
  filter : DetectionFilter

/-- __init__ (lines 98-114): construction completes only when the
construction-time getResultMappingTable call succeeds; labels is the label
list of that successful response.  The filter starts as
Filter(len(result_mapping_table)). -/
def TargetDetectionClient.init (ip port : String) (task_id : Int)
    (labels : List String) : TargetDetectionClient :=
  let table := mappingTableOfLabels labels
  ⟨ip, port, task_id, table, DetectionFilter.init table.length⟩

/-- The message of the exception raised by convert_id_to_label on a
missing key (line 134). -/
def TargetDetectionClient.convertErrMsg (label_id : Int) : String :=
  "TargetDetectionClient Error: Failed to find label for ID " ++ toString label_id

/-- convert_id_to_label (lines 116-136): dict lookup, raising on KeyError. -/
def TargetDetectionClient.convert_id_to_label (c : TargetDetectionClient)
    (label_id : Int) : Except String String :=
  match pyDictGet c.result_mapping_table label_id with
  | some label => .ok label
  | none => .error (TargetDetectionClient.convertErrMsg label_id)

/-- The message of the exception raised by query_label_id on a missing
value (line 156). -/
def TargetDetectionClient.queryErrMsg (label : String) : String :=
  "TargetDetectionClient Error: Failed to find ID for label \x27" ++ label ++ "\x27"

/-- query_label_id (lines 138-158): scans the mapping-table items in
order and returns the first key whose value equals the label, raising
when none matches. -/
def TargetDetectionClient.query_label_id (c : TargetDetectionClient)
    (label : String) : Except String Int :=
  match c.result_mapping_table.find? (fun p => p.2 == label) with
  | some p => .ok p.1
  | none => .error (TargetDetectionClient.queryErrMsg label)

/-- The newline-joined message of the exception raised by
get_result_mapping_table on a non-200 code (lines 172-180). -/
def TargetDetectionClient.mappingErrMsg (c : TargetDetectionClient) (m : String) : String :=
  joinLines
    ["TargetDetectionClient Error: Failed to get result mapping table",
     "   ip:   " ++ c.ip,
     "   port: " ++ c.port,
     "Error:",
     m]

/-- get_result_mapping_table (lines 160-186): fetches and rebuilds the
table; on RpcError it logs and re-raises. -/
def TargetDetectionClient.get_result_mapping_table (c : TargetDetectionClient)
    (call : Except String GetResultMappingTableResponse) :
    Except String (List (Int × String)) × List GetResultMappingTableRequest :=
  let request : GetResultMappingTableRequest := ⟨c.task_id⟩
  match call with
  | .error e => (.error e, [request])
  | .ok response =>
      if response.response.code ≠ 200 then
        (.error (c.mappingErrMsg response.response.message), [request])
      else
        (.ok (mappingTableOfLabels response.labels), [request])

/-- The newline-joined message of the exception raised by
get_result_by_image_id on a non-200 code (lines 203-211). -/
def TargetDetectionClient.resultErrMsg (c : TargetDetectionClient) (m : String) : String :=
  joinLines
    ["TargetDetectionClient Error: Failed to get result",
     "   ip:   " ++ c.ip,
     "   port: " ++ c.port,
     "Error:",
     m]

/-- get_result_by_image_id (lines 188-218): request (taskId, imageId,
wait=True); on success the comprehension at lines 212-213 keeps exactly
the response results whose labelId passes filter.check, in order; on
RpcError it logs and re-raises. -/
def TargetDetectionClient.get_result_by_image_id (c : TargetDetectionClient)
    (image_id : Int) (call : Except String GetResultIndexByImageIdResponse) :
    Except String (List DetResult) × List GetResultIndexByImageIdRequest :=
  let request : GetResultIndexByImageIdRequest := ⟨c.task_id, image_id, true⟩
  match call with
  | .error e => (.error e, [request])
  | .ok response =>
      if response.response.code ≠ 200 then
        (.error (c.resultErrMsg response.response.message), [request])
      else
        (.ok ((response.results.filter (fun r => c.filter.check r.labelId)).map detResultOfMsg),
         [request])

/-! ## src/target_tracking/target_tracking_client.py -/

/-- TargetTrackingClient.Filter (lines 21-72): a Python set of label
strings. -/
structure TrackingFilter where
  filter : Finset String
deriving DecidableEq

/-- Filter.__init__ (lines 28-35): the empty set. -/
def TrackingFilter.init : TrackingFilter :=
  ⟨∅⟩

/-- Filter.add (lines 37-44). -/
def TrackingFilter.add (f : TrackingFilter) (label : String) : TrackingFilter :=
  ⟨insert label f.filter⟩

/-- Filter.remove (lines 46-54): removes only when present. -/
def TrackingFilter.remove (f : TrackingFilter) (label : String) : TrackingFilter :=
  ⟨f.filter.erase label⟩

/-- Filter.clear (lines 56-60). -/
def TrackingFilter.clear (f : TrackingFilter) : TrackingFilter :=
  ⟨∅⟩

/-- Filter.check (lines 62-72): membership test. -/
def TrackingFilter.check (f : TrackingFilter) (label : String) : Bool :=
  decide (label ∈ f.filter)

/-- One of the three mutating filter operations, for stating what a
client whose filter has never seen an add returns. -/
inductive TrackingFilterOp : Type
  | add (label : String)
  | remove (label : String)
  | clear

def TrackingFilterOp.isAdd : TrackingFilterOp → Bool
  | .add _ => true
  | .remove _ => false
  | .clear => false

def TrackingFilter.applyOp (f : TrackingFilter) : TrackingFilterOp → TrackingFilter
  | .add label => f.add label
  | .remove label => f.remove label
  | .clear => f.clear

def TrackingFilter.applyOps (f : TrackingFilter) (ops : List TrackingFilterOp) :
    TrackingFilter :=
  ops.foldl TrackingFilter.applyOp f

/-- TargetTrackingClient.BBox (lines 74-85). -/
structure BBox where
  x1 : Float
  y1 : Float
  x2 : Float
  y2 : Float

/-- A bounding box inside a tracking response element. -/
structure TrackBBoxMsg where
  x1 : Float
  y1 : Float
  x2 : Float
  y2 : Float

/-- One element of response.results of getResultByImageId: a track id, a
label string and the track bboxs. -/
structure TrackResultMsg where
  id : Int
  label : String
  bboxs : List TrackBBoxMsg

structure TrackGetResultByImageIdRequest where
  taskId : Int
  imageId : Int
  wait : Bool
  onlyTheLatest : Bool
deriving DecidableEq

structure TrackGetResultByImageIdResponse where
  response : ResponseMeta
  results : List TrackResultMsg

/-- State of a TargetTrackingClient: ip, port, __task_id and filter. -/
structure TargetTrackingClient where
  ip : String
  port : String
  task_id : Int
  filter : TrackingFilter

/-- __init__ (lines 87-102): the filter starts empty. -/
def TargetTrackingClient.init (ip port : String) (task_id : Int) :
    TargetTrackingClient :=
  ⟨ip, port, task_id, TrackingFilter.init⟩

/-- The newline-joined message of the exception raised by
get_result_by_image_id on a non-200 code (lines 128-136). -/
def TargetTrackingClient.resultErrMsg (c : TargetTrackingClient) (m : String) : String :=
  joinLines
    ["TargetTrackingClient Error: Failed to get result",
     "   ip:   " ++ c.ip,
     "   port: " ++ c.port,
     "Error:",
     m]

/-- The body of the result loop at lines 138-149: a result whose label
fails the filter is skipped; otherwise results[result.id] is set to [] and
each bbox of result.bboxs is appended to it, leaving exactly the list of
converted bboxs at that key. -/
def trackLoopBody (filt : TrackingFilter) (d : List (Int × List BBox))
    (r : TrackResultMsg) : List (Int × List BBox) :=
  if filt.check r.label then
    pyDictSet d r.id (r.bboxs.map (fun b => BBox.mk b.x1 b.y1 b.x2 b.y2))
  else d

/-- get_result_by_image_id (lines 104-154): request (taskId, imageId,
wait=True, onlyTheLatest=only_the_last); on success the loop at lines
137-149 builds the filtered dict; on RpcError it logs and re-raises. -/
def TargetTrackingClient.get_result_by_image_id (c : TargetTrackingClient)
    (image_id : Int) (only_the_last : Bool)
    (call : Except String TrackGetResultByImageIdResponse) :
    Except String (List (Int × List BBox)) × List TrackGetResultByImageIdRequest :=
  let request : TrackGetResultByImageIdRequest := ⟨c.task_id, image_id, true, only_the_last⟩
  match call with
  | .error e => (.error e, [request])
  | .ok response =>
      if response.response.code ≠ 200 then
        (.error (c.resultErrMsg response.response.message), [request])
      else
        (.ok (response.results.foldl (trackLoopBody c.filter) []), [request])

/-! ## Proof-support definitions and concrete inputs for witnesses -/

/-- Index-recursive view of the mapping-table dict: the table built from
enumerate starting at index k. -/
def mappingTableFrom (k : Nat) : List String → List (Int × String)
  | [] => []
  | l :: ls => ((k : Int), l) :: mappingTableFrom (k + 1) ls

def wMetaOk : ResponseMeta := ⟨200, "ok"⟩

def wMetaBad : ResponseMeta := ⟨500, "boom"⟩

def wImageResp : ImageResponse := ⟨7, [1, 2, 3], 640, 480⟩

def wHarmony : ImageHarmonyClient := ⟨"10.0.0.1", "50051", 3⟩

def wDetLabels : List String := ["cat", "dog"]

def wDetClient : TargetDetectionClient :=
  TargetDetectionClient.init "10.0.0.1" "50052" 1 wDetLabels

def wDetResp : GetResultIndexByImageIdResponse :=
  ⟨wMetaOk, [⟨0, 0.0, 0.0, 1.0, 1.0, 0.9⟩, ⟨5, 0.0, 0.0, 1.0, 1.0, 0.8⟩]⟩

def wTrackClient : TargetTrackingClient :=
  ⟨"10.0.0.1", "50053", 2, TrackingFilter.init.add "cat"⟩

def wTrackResp : TrackGetResultByImageIdResponse :=
  ⟨wMetaOk, [⟨11, "cat", [⟨0.0, 0.0, 1.0, 1.0⟩]⟩, ⟨12, "bird", []⟩]⟩

def wDetResp2 : GetResultIndexByImageIdResponse :=
  ⟨wMetaOk, [⟨0, 0.0, 0.0, 1.0, 1.0, 0.9⟩, ⟨1, 0.0, 0.0, 1.0, 1.0, 0.8⟩]⟩

def wOkIResp : GetImageByImageIdResponse := ⟨wMetaOk, wImageResp⟩

def wBadIResp : GetImageByImageIdResponse := ⟨wMetaBad, wImageResp⟩

def wBadDResp : GetResultIndexByImageIdResponse := ⟨wMetaBad, []⟩

def wBadTResp : TrackGetResultByImageIdResponse := ⟨wMetaBad, []⟩

def wBadBResp : CoordBasicResponse := ⟨wMetaBad⟩

def wBadCResp : InformCurrentServiceInfoResponse := ⟨wMetaBad, []⟩

/-! # Helper lemmas -/

theorem strContains_self (s : String) : strContains s s :=
  ⟨[], [], by simp⟩

theorem strContains_appendL (t s : String) : strContains (t ++ s) s :=
  ⟨t.data, [], by simp [String.data_append]⟩

theorem strContains_append_right (t : String) {x sub : String}
    (h : strContains x sub) : strContains (x ++ t) sub := by
  obtain ⟨a, b, hab⟩ := h
  exact ⟨a, b ++ t.data, by rw [String.data_append, ← hab]; simp⟩

theorem strContains_append_left (t : String) {x sub : String}
    (h : strContains x sub) : strContains (t ++ x) sub := by
  obtain ⟨a, b, hab⟩ := h
  exact ⟨t.data ++ a, b, by rw [String.data_append, ← hab]; simp⟩

theorem strContains_joinLines (lines : List String) (s : String) {sub : String}
    (hs : s ∈ lines) (h : strContains s sub) : strContains (joinLines lines) sub := by
  induction lines with
  | nil => cases hs
  | cons x rest ih =>
    cases rest with
    | nil =>
      have hx : s = x := by simpa using hs
      subst hx
      simpa [joinLines] using h
    | cons y rest2 =>
      rcases List.mem_cons.mp hs with hx | hmem
      · subst hx
        show strContains (s ++ "\x0a" ++ joinLines (y :: rest2)) sub
        exact strContains_append_right _ (strContains_append_right _ h)
      · show strContains (x ++ "\x0a" ++ joinLines (y :: rest2)) sub
        exact strContains_append_left _ (ih hmem)

theorem bufferErrMsg_contains (c : ImageHarmonyClient) (m : String) :
    strContains (c.bufferErrMsg m) m ∧ strContains (c.bufferErrMsg m) c.ip ∧
      strContains (c.bufferErrMsg m) c.port := by
  unfold ImageHarmonyClient.bufferErrMsg
  exact ⟨strContains_joinLines _ m (by simp) (strContains_self m),
    strContains_joinLines _ ("   ip:   " ++ c.ip) (by simp) (strContains_appendL _ _),
    strContains_joinLines _ ("   port: " ++ c.port) (by simp) (strContains_appendL _ _)⟩

theorem detResultErrMsg_contains (c : TargetDetectionClient) (m : String) :
    strContains (c.resultErrMsg m) m ∧ strContains (c.resultErrMsg m) c.ip ∧
      strContains (c.resultErrMsg m) c.port := by
  unfold TargetDetectionClient.resultErrMsg
  exact ⟨strContains_joinLines _ m (by simp) (strContains_self m),
    strContains_joinLines _ ("   ip:   " ++ c.ip) (by simp) (strContains_appendL _ _),
    strContains_joinLines _ ("   port: " ++ c.port) (by simp) (strContains_appendL _ _)⟩

theorem trackResultErrMsg_contains (c : TargetTrackingClient) (m : String) :
    strContains (c.resultErrMsg m) m ∧ strContains (c.resultErrMsg m) c.ip ∧
      strContains (c.resultErrMsg m) c.port := by
  unfold TargetTrackingClient.resultErrMsg
  exact ⟨strContains_joinLines _ m (by simp) (strContains_self m),
    strContains_joinLines _ ("   ip:   " ++ c.ip) (by simp) (strContains_appendL _ _),
    strContains_joinLines _ ("   port: " ++ c.port) (by simp) (strContains_appendL _ _)⟩

theorem pyDictGet_pyDictSet {α β : Type} [DecidableEq α] (d : List (α × β))
    (k k' : α) (v : β) :
    pyDictGet (pyDictSet d k v) k' = if k' = k then some v else pyDictGet d k' := by
  induction d with
  | nil =>
    by_cases h : k' = k
    · subst h; simp [pyDictSet, pyDictGet]
    · simp [pyDictSet, pyDictGet, h, Ne.symm h]
  | cons p d ih =>
    by_cases h1 : p.1 = k
    · by_cases h2 : k' = k
      · subst h2; simp [pyDictSet, pyDictGet, h1]
      · have h3 : p.1 ≠ k' := by rw [h1]; exact Ne.symm h2
        simp [pyDictSet, pyDictGet, h1, h2, h3, Ne.symm h2]
    · by_cases h2 : k' = k
      · subst h2; simp [pyDictSet, pyDictGet, h1, ih]
      · simp [pyDictSet, pyDictGet, h1, h2, ih]

theorem trackFold_isSome (filt : TrackingFilter) (rs : List TrackResultMsg)
    (d0 : List (Int × List BBox)) (k : Int) :
    (pyDictGet (rs.foldl (trackLoopBody filt) d0) k).isSome = true ↔
      (pyDictGet d0 k).isSome = true ∨
        ∃ r ∈ rs, filt.check r.label = true ∧ r.id = k := by
  induction rs generalizing d0 with
  | nil => simp
  | cons r rs ih =>
    rw [List.foldl_cons, ih]
    unfold trackLoopBody
    by_cases hc : filt.check r.label
    · rw [if_pos hc, pyDictGet_pyDictSet]
      by_cases hk : k = r.id
      · subst hk
        constructor
        · intro _
          exact Or.inr ⟨r, List.mem_cons_self r rs, hc, rfl⟩
        · intro _
          simp
      · rw [if_neg hk]
        constructor
        · rintro (h | h)
          · exact Or.inl h
          · obtain ⟨r', hr', hcheck, hid⟩ := h
            exact Or.inr ⟨r', by simp [hr'], hcheck, hid⟩
        · rintro (h | ⟨r', hr', hcheck, hid⟩)
          · exact Or.inl h
          · rcases List.mem_cons.mp hr' with hr0 | hr1
            · exact absurd (hr0 ▸ hid).symm hk
            · exact Or.inr ⟨r', hr1, hcheck, hid⟩
    · rw [if_neg hc]
      constructor
      · rintro (h | ⟨r', hr', hcheck, hid⟩)
        · exact Or.inl h
        · exact Or.inr ⟨r', by simp [hr'], hcheck, hid⟩
      · rintro (h | ⟨r', hr', hcheck, hid⟩)
        · exact Or.inl h
        · rcases List.mem_cons.mp hr' with hr0 | hr1
          · subst hr0; exact absurd hcheck (by simpa using hc)
          · exact Or.inr ⟨r', hr1, hcheck, hid⟩

theorem trackFold_empty (filt : TrackingFilter) (hf : filt.filter = ∅)
    (rs : List TrackResultMsg) (d : List (Int × List BBox)) :
    rs.foldl (trackLoopBody filt) d = d := by
  induction rs generalizing d with
  | nil => rfl
  | cons r rs ih =>
    have hc : filt.check r.label = false := by
      simp [TrackingFilter.check, hf]
    rw [List.foldl_cons]
    simp only [trackLoopBody, hc, Bool.false_eq_true, if_false]
    exact ih d

theorem trackingFilter_applyOp_empty (f : TrackingFilter) (hf : f.filter = ∅)
    (op : TrackingFilterOp) (h : op.isAdd = false) : (f.applyOp op).filter = ∅ := by
  cases op with
  | add l => simp [TrackingFilterOp.isAdd] at h
  | remove l => simp [TrackingFilter.applyOp, TrackingFilter.remove, hf]
  | clear => simp [TrackingFilter.applyOp, TrackingFilter.clear]

theorem trackingFilter_applyOps_empty (ops : List TrackingFilterOp)
    (f : TrackingFilter) (hf : f.filter = ∅)
    (h : ops.all (fun o => !o.isAdd) = true) : (f.applyOps ops).filter = ∅ := by
  induction ops generalizing f with
  | nil => simpa [TrackingFilter.applyOps] using hf
  | cons op ops ih =>
    simp only [List.all_cons, Bool.and_eq_true, Bool.not_eq_true'] at h
    have step := trackingFilter_applyOp_empty f hf op h.1
    show (TrackingFilter.applyOps (f.applyOp op) ops).filter = ∅
    exact ih _ step h.2

theorem enumFrom_map_eq (labels : List String) :
    ∀ k : Nat, (List.enumFrom k labels).map (fun p => ((p.1 : Int), p.2)) =
      mappingTableFrom k labels := by
  induction labels with
  | nil => intro k; rfl
  | cons l ls ih => intro k; simp [List.enumFrom, mappingTableFrom, ih]

theorem mappingTableOfLabels_eq (labels : List String) :
    mappingTableOfLabels labels = mappingTableFrom 0 labels := by
  simpa [mappingTableOfLabels, List.enum] using enumFrom_map_eq labels 0

theorem mappingTableFrom_length (ls : List String) :
    ∀ k, (mappingTableFrom k ls).length = ls.length := by
  induction ls with
  | nil => intro k; rfl
  | cons l ls ih => intro k; simp [mappingTableFrom, ih]

theorem pyDictGet_mappingTableFrom_mem {ls : List String} :
    ∀ {k : Nat} {i : Int} {lab : String},
      pyDictGet (mappingTableFrom k ls) i = some lab → lab ∈ ls := by
  induction ls with
  | nil => intro k i lab h; simp [mappingTableFrom, pyDictGet] at h
  | cons l ls ih =>
    intro k i lab h
    simp only [mappingTableFrom, pyDictGet] at h
    split at h
    · injection h with h2
      exact h2 ▸ List.mem_cons_self l ls
    · exact List.mem_cons_of_mem _ (ih h)

theorem pyDictGet_mappingTableFrom_bound {ls : List String} :
    ∀ {k : Nat} {i : Int} {lab : String},
      pyDictGet (mappingTableFrom k ls) i = some lab → (k : Int) ≤ i := by
  induction ls with
  | nil => intro k i lab h; simp [mappingTableFrom, pyDictGet] at h
  | cons l ls ih =>
    intro k i lab h
    simp only [mappingTableFrom, pyDictGet] at h
    split at h
    · next hik => omega
    · next hik =>
      have := ih h
      push_cast at this
      omega

theorem find?_of_pyDictGet {ls : List String} :
    ∀ (hnd : ls.Nodup) {k : Nat} {i : Int} {lab : String},
      pyDictGet (mappingTableFrom k ls) i = some lab →
      (mappingTableFrom k ls).find? (fun p => p.2 == lab) = some (i, lab) := by
  induction ls with
  | nil => intro hnd k i lab h; simp [mappingTableFrom, pyDictGet] at h
  | cons l ls ih =>
    intro hnd k i lab h
    obtain ⟨hl, hnd2⟩ := List.nodup_cons.mp hnd
    show List.find? (fun p => p.2 == lab) (((k : Int), l) :: mappingTableFrom (k + 1) ls) = _
    by_cases hik : (k : Int) = i
    · have h2 : some l = some lab := by
        simpa [mappingTableFrom, pyDictGet, if_pos hik] using h
      injection h2 with h2
      rw [List.find?_cons_of_pos _ (by simp [h2])]
      rw [h2, hik]
    · have h3 : pyDictGet (mappingTableFrom (k + 1) ls) i = some lab := by
        simpa [mappingTableFrom, pyDictGet, if_neg hik] using h
      have hmem : lab ∈ ls := pyDictGet_mappingTableFrom_mem h3
      have hne : l ≠ lab := fun e => hl (e ▸ hmem)
      rw [List.find?_cons_of_neg _ (by simpa using hne)]
      exact ih hnd2 h3

theorem find?_of_mem_labels {ls : List String} :
    ∀ {k : Nat} {lab : String}, lab ∈ ls →
      ∃ i : Int, (mappingTableFrom k ls).find? (fun p => p.2 == lab) = some (i, lab) ∧
        pyDictGet (mappingTableFrom k ls) i = some lab := by
  induction ls with
  | nil => intro k lab h; cases h
  | cons l ls ih =>
    intro k lab hmem
    by_cases hl : l = lab
    · subst hl
      refine ⟨(k : Int), ?_, ?_⟩
      · show List.find? (fun p => p.2 == l) (((k : Int), l) :: mappingTableFrom (k + 1) ls) = _
        rw [List.find?_cons_of_pos _ (by simp)]
      · simp [mappingTableFrom, pyDictGet]
    · have hmem2 : lab ∈ ls := by
        rcases List.mem_cons.mp hmem with h0 | h1
        · exact absurd h0.symm hl
        · exact h1
      obtain ⟨i, hf, hg⟩ := @ih (k + 1) lab hmem2
      have hik : (k : Int) ≠ i := by
        have := pyDictGet_mappingTableFrom_bound hg
        push_cast at this
        omega
      refine ⟨i, ?_, ?_⟩
      · show List.find? (fun p => p.2 == lab) (((k : Int), l) :: mappingTableFrom (k + 1) ls) = _
        rw [List.find?_cons_of_neg _ (by simpa using hl)]
        exact hf
      · simp only [mappingTableFrom, pyDictGet, if_neg hik]
        exact hg

theorem detectionFilter_check_init (n : Nat) (i : Int) :
    (DetectionFilter.init n).check i = true ↔ 0 ≤ i ∧ i < (n : Int) := by
  simp only [DetectionFilter.init, DetectionFilter.check, decide_eq_true_eq,
    Finset.mem_image, Finset.mem_range]
  constructor
  · rintro ⟨m, hm, rfl⟩
    exact ⟨Int.ofNat_nonneg m, by exact_mod_cast hm⟩
  · rintro ⟨h0, hn⟩
    exact ⟨i.toNat, by omega, by omega⟩

theorem connect_trace (c : ImageHarmonyClient) (h : Int)
    (call : Except String ConnectImageLoaderResponse) :
    (c.connect_image_loader h call).2.2 = [⟨h⟩] := by
  unfold ImageHarmonyClient.connect_image_loader
  cases call with
  | error e => rfl
  | ok r => dsimp only; split <;> rfl

theorem disconnect_trace (c : ImageHarmonyClient)
    (call : Except String DisconnectImageLoaderResponse) :
    (c.disconnect_image_loader call).2.2 =
      if c.connectionId = 0 then [] else [⟨c.connectionId⟩] := by
  unfold ImageHarmonyClient.disconnect_image_loader
  by_cases h0 : c.connectionId = 0
  · rw [if_pos h0, if_pos h0]
  · rw [if_neg h0, if_neg h0]
    cases call with
    | error e => rfl
    | ok r => dsimp only; split <;> rfl

theorem harmony_buffer_trace (c : ImageHarmonyClient) (i w hgt : Int)
    (f : String) (p : List Int) (call : Except String GetImageByImageIdResponse) :
    (c.get_image_buffer_by_image_id i w hgt f p call).2 =
      [⟨c.connectionId, ⟨i, false, f, p, w, hgt⟩⟩] := by
  unfold ImageHarmonyClient.get_image_buffer_by_image_id
  cases call with
  | error e => rfl
  | ok r => dsimp only; split <;> rfl

theorem harmony_get_image_trace {Img : Type} (c : ImageHarmonyClient)
    (i w hgt : Int) (f : String) (p : List Int)
    (call : Except String GetImageByImageIdResponse)
    (imdecode : List Nat → Option Img) :
    (c.get_image_by_image_id i w hgt f p call imdecode).2 =
      [⟨c.connectionId, ⟨i, false, f, p, w, hgt⟩⟩] := by
  unfold ImageHarmonyClient.get_image_by_image_id
  rw [← harmony_buffer_trace c i w hgt f p call]
  generalize c.get_image_buffer_by_image_id i w hgt f p call = r0
  obtain ⟨res, tr⟩ := r0
  cases res with
  | error e => rfl
  | ok pr =>
    obtain ⟨a, b⟩ := pr
    rcases himg : imdecode b with _ | img <;> simp [himg]

theorem harmony_size_trace (c : ImageHarmonyClient) (i : Int)
    (call : Except String GetImageByImageIdResponse) :
    (c.get_image_size_by_image_id i call).2 =
      [⟨c.connectionId, ⟨i, true, "", [], 0, 0⟩⟩] := by
  unfold ImageHarmonyClient.get_image_size_by_image_id
  cases call with
  | error e => rfl
  | ok r => dsimp only; split <;> rfl

theorem renderer_buffer_trace (t i w hgt : Int) (f : String) (p : List Int)
    (call : Except String GetImageByImageIdResponse) :
    (ImageRendererClient.get_image_buffer_by_image_id t i w hgt f p call).2 =
      [⟨t, ⟨i, false, f, p, w, hgt⟩⟩] := by
  unfold ImageRendererClient.get_image_buffer_by_image_id
  cases call with
  | error e => rfl
  | ok r => dsimp only; split <;> rfl

theorem renderer_get_image_trace {Img : Type} (empty_image : Img)
    (t i w hgt : Int) (f : String) (p : List Int)
    (call : Except String GetImageByImageIdResponse)
    (imdecode : List Nat → Option Img) :
    (ImageRendererClient.get_image_by_image_id empty_image t i w hgt f p call imdecode).2 =
      [⟨t, ⟨i, false, f, p, w, hgt⟩⟩] := by
  unfold ImageRendererClient.get_image_by_image_id
  rw [← renderer_buffer_trace t i w hgt f p call]
  generalize ImageRendererClient.get_image_buffer_by_image_id t i w hgt f p call = r0
  obtain ⟨pr, tr⟩ := r0
  obtain ⟨a, b⟩ := pr
  dsimp only
  by_cases hb : b = []
  · rw [if_pos hb]
  · rw [if_neg hb]
    cases imdecode b with
    | none => rfl
    | some img => rfl

/-- Evaluation of the renderer get_image_size_by_image_id: because the
request construction raises on the unknown keyword task_id, the except
clause returns (0, 0) and the stub is never invoked, whatever the remote
would have answered. -/
theorem renderer_size_eval (t i : Int)
    (call : Except String GetImageByImageIdResponse) :
    ImageRendererClient.get_image_size_by_image_id t i call = ((0, 0), []) := by
  unfold ImageRendererClient.get_image_size_by_image_id
  rfl

theorem coord_previous_trace (tid n ip p : String) (args : List (String × String))
    (call : Except String CoordBasicResponse) :
    (ServiceCoordinatorClient.inform_previous_service_info tid n ip p args call).2 =
      [⟨tid, n, ip, p, args⟩] := by
  unfold ServiceCoordinatorClient.inform_previous_service_info
  cases call with
  | error e => rfl
  | ok r => dsimp only; split <;> rfl

theorem coord_current_trace (tid : String) (args : List (String × String))
    (call : Except String InformCurrentServiceInfoResponse) :
    (ServiceCoordinatorClient.inform_current_service_info tid args call).2 =
      [⟨tid, args⟩] := by
  unfold ServiceCoordinatorClient.inform_current_service_info
  cases call with
  | error e => rfl
  | ok r => dsimp only; split <;> rfl

theorem coord_start_trace (tid : String) (call : Except String CoordBasicResponse) :
    (ServiceCoordinatorClient.start tid call).2 = [⟨tid⟩] := by
  unfold ServiceCoordinatorClient.start
  cases call with
  | error e => rfl
  | ok r => dsimp only; split <;> rfl

theorem coord_stop_trace (tid : String) (call : Except String CoordBasicResponse) :
    (ServiceCoordinatorClient.stop tid call).2 = [⟨tid⟩] := by
  unfold ServiceCoordinatorClient.stop
  cases call with
  | error e => rfl
  | ok r => dsimp only; split <;> rfl

theorem det_mapping_trace (c : TargetDetectionClient)
    (call : Except String GetResultMappingTableResponse) :
    (c.get_result_mapping_table call).2 = [⟨c.task_id⟩] := by
  unfold TargetDetectionClient.get_result_mapping_table
  cases call with
  | error e => rfl
  | ok r => dsimp only; split <;> rfl

theorem det_result_trace (c : TargetDetectionClient) (image_id : Int)
    (call : Except String GetResultIndexByImageIdResponse) :
    (c.get_result_by_image_id image_id call).2 = [⟨c.task_id, image_id, true⟩] := by
  unfold TargetDetectionClient.get_result_by_image_id
  cases call with
  | error e => rfl
  | ok r => dsimp only; split <;> rfl

theorem track_result_trace (c : TargetTrackingClient) (image_id : Int)
    (only_the_last : Bool)
    (call : Except String TrackGetResultByImageIdResponse) :
    (c.get_result_by_image_id image_id only_the_last call).2 =
      [⟨c.task_id, image_id, true, only_the_last⟩] := by
  unfold TargetTrackingClient.get_result_by_image_id
  cases call with
  | error e => rfl
  | ok r => dsimp only; split <;> rfl

theorem harmony_buffer_ok (c : ImageHarmonyClient) (i w hgt : Int) (f : String)
    (p : List Int) (resp : GetImageByImageIdResponse)
    (h : resp.response.code = 200) :
    (c.get_image_buffer_by_image_id i w hgt f p (.ok resp)).1 =
      .ok (resp.imageResponse.imageId, resp.imageResponse.buffer) := by
  unfold ImageHarmonyClient.get_image_buffer_by_image_id
  dsimp only
  rw [if_neg (by simp [h])]

theorem harmony_buffer_err (c : ImageHarmonyClient) (i w hgt : Int) (f : String)
    (p : List Int) (resp : GetImageByImageIdResponse)
    (h : resp.response.code ≠ 200) :
    (c.get_image_buffer_by_image_id i w hgt f p (.ok resp)).1 =
      .error (c.bufferErrMsg resp.response.message) := by
  unfold ImageHarmonyClient.get_image_buffer_by_image_id
  dsimp only
  rw [if_pos h]

theorem renderer_buffer_ok (t i w hgt : Int) (f : String) (p : List Int)
    (resp : GetImageByImageIdResponse) (h : resp.response.code = 200) :
    (ImageRendererClient.get_image_buffer_by_image_id t i w hgt f p (.ok resp)).1 =
      (resp.imageResponse.imageId, resp.imageResponse.buffer) := by
  unfold ImageRendererClient.get_image_buffer_by_image_id
  dsimp only
  rw [if_neg (by simp [h])]

theorem renderer_buffer_err (t i w hgt : Int) (f : String) (p : List Int)
    (resp : GetImageByImageIdResponse) (h : resp.response.code ≠ 200) :
    (ImageRendererClient.get_image_buffer_by_image_id t i w hgt f p (.ok resp)).1 =
      (0, []) := by
  unfold ImageRendererClient.get_image_buffer_by_image_id
  dsimp only
  rw [if_pos h]

theorem det_result_err (c : TargetDetectionClient) (image_id : Int)
    (resp : GetResultIndexByImageIdResponse) (h : resp.response.code ≠ 200) :
    (c.get_result_by_image_id image_id (.ok resp)).1 =
      .error (c.resultErrMsg resp.response.message) := by
  unfold TargetDetectionClient.get_result_by_image_id
  dsimp only
  rw [if_pos h]

theorem track_result_err (c : TargetTrackingClient) (image_id : Int)
    (only_the_last : Bool) (resp : TrackGetResultByImageIdResponse)
    (h : resp.response.code ≠ 200) :
    (c.get_result_by_image_id image_id only_the_last (.ok resp)).1 =
      .error (c.resultErrMsg resp.response.message) := by
  unfold TargetTrackingClient.get_result_by_image_id
  dsimp only
  rw [if_pos h]

theorem coord_start_err (tid : String) (resp : CoordBasicResponse)
    (h : resp.response.code ≠ 200) :
    (ServiceCoordinatorClient.start tid (.ok resp)).1 = false := by
  unfold ServiceCoordinatorClient.start
  dsimp only
  rw [if_pos h]

theorem coord_stop_err (tid : String) (resp : CoordBasicResponse)
    (h : resp.response.code ≠ 200) :
    (ServiceCoordinatorClient.stop tid (.ok resp)).1 = false := by
  unfold ServiceCoordinatorClient.stop
  dsimp only
  rw [if_pos h]

theorem coord_previous_err (tid n ip p : String) (args : List (String × String))
    (resp : CoordBasicResponse) (h : resp.response.code ≠ 200) :
    (ServiceCoordinatorClient.inform_previous_service_info tid n ip p args (.ok resp)).1 =
      false := by
  unfold ServiceCoordinatorClient.inform_previous_service_info
  dsimp only
  rw [if_pos h]

theorem coord_current_err (tid : String) (args : List (String × String))
    (resp : InformCurrentServiceInfoResponse) (h : resp.response.code ≠ 200) :
    (ServiceCoordinatorClient.inform_current_service_info tid args (.ok resp)).1 =
      (false, []) := by
  unfold ServiceCoordinatorClient.inform_current_service_info
  dsimp only
  rw [if_pos h]

/-! # Claim theorems -/

/-- Claim C1: for every successful response, the detection client returns
exactly the response results whose labelId passes the filter set, in
response order; the tracking client returns a dict whose keys are exactly
the ids of results whose label string passes its filter set -- no result
outside the filter set is ever returned. -/
theorem c1_filter_results :
    (∀ (c : TargetDetectionClient) (image_id : Int)
        (resp : GetResultIndexByImageIdResponse), resp.response.code = 200 →
        (c.get_result_by_image_id image_id (.ok resp)).1 =
          .ok ((resp.results.filter (fun r => c.filter.check r.labelId)).map detResultOfMsg))
    ∧ (∀ (t : TargetTrackingClient) (image_id : Int) (only_the_last : Bool)
        (resp : TrackGetResultByImageIdResponse), resp.response.code = 200 →
        ∃ d, (t.get_result_by_image_id image_id only_the_last (.ok resp)).1 = .ok d ∧
          ∀ k : Int, (pyDictGet d k).isSome = true ↔
            ∃ r ∈ resp.results, t.filter.check r.label = true ∧ r.id = k) := by
  constructor
  · intro c image_id resp h
    unfold TargetDetectionClient.get_result_by_image_id
    dsimp only
    rw [if_neg (by simp [h])]
  · intro t image_id only_the_last resp h
    refine ⟨resp.results.foldl (trackLoopBody t.filter) [], ?_, ?_⟩
    · unfold TargetTrackingClient.get_result_by_image_id
      dsimp only
      rw [if_neg (by simp [h])]
    · intro k
      rw [trackFold_isSome]
      simp [pyDictGet]

/-- Witness for C1 at concrete clients and responses. -/
theorem c1_filter_results_witness :
    ((wDetClient.get_result_by_image_id 5 (.ok wDetResp)).1 =
      .ok ((wDetResp.results.filter (fun r => wDetClient.filter.check r.labelId)).map
        detResultOfMsg))
    ∧ (∃ d, (wTrackClient.get_result_by_image_id 5 true (.ok wTrackResp)).1 = .ok d ∧
        ∀ k : Int, (pyDictGet d k).isSome = true ↔
          ∃ r ∈ wTrackResp.results, wTrackClient.filter.check r.label = true ∧ r.id = k) :=
  ⟨c1_filter_results.1 wDetClient 5 wDetResp rfl,
   c1_filter_results.2 wTrackClient 5 true wTrackResp rfl⟩

/-- Claim C2: on a non-success status the image-harmony, target-detection
and target-tracking methods raise an error whose message carries the
remote message and the endpoint ip and port, while the image-renderer and
service-coordinator methods return the sentinels (0, empty bytes), (0, 0),
False and (False, empty dict) without raising. -/
theorem c2_error_policy
    (hc : ImageHarmonyClient) (dc : TargetDetectionClient) (tc : TargetTrackingClient)
    (image_id width height task_id : Int) (format : String) (params : List Int)
    (only_the_last : Bool) (stid sname sip sport : String)
    (args : List (String × String))
    (iresp : GetImageByImageIdResponse)
    (dresp : GetResultIndexByImageIdResponse)
    (tresp : TrackGetResultByImageIdResponse)
    (bresp : CoordBasicResponse)
    (cresp : InformCurrentServiceInfoResponse)
    (hi : iresp.response.code ≠ 200) (hd : dresp.response.code ≠ 200)
    (ht : tresp.response.code ≠ 200) (hb : bresp.response.code ≠ 200)
    (hcr : cresp.response.code ≠ 200) :
    ((hc.get_image_buffer_by_image_id image_id width height format params (.ok iresp)).1 =
        .error (hc.bufferErrMsg iresp.response.message)
      ∧ strContains (hc.bufferErrMsg iresp.response.message) iresp.response.message
      ∧ strContains (hc.bufferErrMsg iresp.response.message) hc.ip
      ∧ strContains (hc.bufferErrMsg iresp.response.message) hc.port)
    ∧ ((dc.get_result_by_image_id image_id (.ok dresp)).1 =
        .error (dc.resultErrMsg dresp.response.message)
      ∧ strContains (dc.resultErrMsg dresp.response.message) dresp.response.message
      ∧ strContains (dc.resultErrMsg dresp.response.message) dc.ip
      ∧ strContains (dc.resultErrMsg dresp.response.message) dc.port)
    ∧ ((tc.get_result_by_image_id image_id only_the_last (.ok tresp)).1 =
        .error (tc.resultErrMsg tresp.response.message)
      ∧ strContains (tc.resultErrMsg tresp.response.message) tresp.response.message
      ∧ strContains (tc.resultErrMsg tresp.response.message) tc.ip
      ∧ strContains (tc.resultErrMsg tresp.response.message) tc.port)
    ∧ (ImageRendererClient.get_image_buffer_by_image_id task_id image_id width height
        format params (.ok iresp)).1 = (0, [])
    ∧ (ImageRendererClient.get_image_size_by_image_id task_id image_id (.ok iresp)).1 = (0, 0)
    ∧ (ServiceCoordinatorClient.start stid (.ok bresp)).1 = false
    ∧ (ServiceCoordinatorClient.stop stid (.ok bresp)).1 = false
    ∧ (ServiceCoordinatorClient.inform_previous_service_info stid sname sip sport args
        (.ok bresp)).1 = false
    ∧ (ServiceCoordinatorClient.inform_current_service_info stid args (.ok cresp)).1 =
        (false, []) := by
  refine ⟨⟨harmony_buffer_err hc image_id width height format params iresp hi,
      (bufferErrMsg_contains hc iresp.response.message).1,
      (bufferErrMsg_contains hc iresp.response.message).2.1,
      (bufferErrMsg_contains hc iresp.response.message).2.2⟩,
    ⟨det_result_err dc image_id dresp hd,
      (detResultErrMsg_contains dc dresp.response.message).1,
      (detResultErrMsg_contains dc dresp.response.message).2.1,
      (detResultErrMsg_contains dc dresp.response.message).2.2⟩,
    ⟨track_result_err tc image_id only_the_last tresp ht,
      (trackResultErrMsg_contains tc tresp.response.message).1,
      (trackResultErrMsg_contains tc tresp.response.message).2.1,
      (trackResultErrMsg_contains tc tresp.response.message).2.2⟩,
    renderer_buffer_err task_id image_id width height format params iresp hi,
    congrArg Prod.fst (renderer_size_eval task_id image_id (.ok iresp)),
    coord_start_err stid bresp hb,
    coord_stop_err stid bresp hb,
    coord_previous_err stid sname sip sport args bresp hb,
    coord_current_err stid args cresp hcr⟩

/-- Witness for C2 at concrete failing responses. -/
theorem c2_error_policy_witness :
    wBadIResp.response.code ≠ 200
    ∧ (wHarmony.get_image_buffer_by_image_id 7 640 480 ".jpg" [1, 80] (.ok wBadIResp)).1 =
        .error (wHarmony.bufferErrMsg "boom")
    ∧ (ServiceCoordinatorClient.start "t1" (.ok wBadBResp)).1 = false :=
  ⟨by decide,
   (c2_error_policy wHarmony wDetClient wTrackClient 7 640 480 3 ".jpg" [1, 80] true
      "t1" "n" "i" "p" [] wBadIResp wBadDResp wBadTResp wBadBResp wBadCResp
      (by decide) (by decide) (by decide) (by decide) (by decide)).1.1,
   (c2_error_policy wHarmony wDetClient wTrackClient 7 640 480 3 ".jpg" [1, 80] true
      "t1" "n" "i" "p" [] wBadIResp wBadDResp wBadTResp wBadBResp wBadCResp
      (by decide) (by decide) (by decide) (by decide) (by decide)).2.2.2.2.2.1⟩

/-- Counterexample to C3 as stated: with the reachable mapping table built
from the duplicate label list a, a (a successful getResultMappingTable
response), convert_id_to_label 1 returns a, but query_label_id a returns
the first matching key 0, not 1. -/
theorem c3_roundtrip_counterexample :
    (TargetDetectionClient.init "127.0.0.1" "50052" 1 ["a", "a"]).convert_id_to_label 1 =
      .ok "a"
    ∧ (TargetDetectionClient.init "127.0.0.1" "50052" 1 ["a", "a"]).query_label_id "a" =
      .ok 0
    ∧ (0 : Int) ≠ 1 := by
  refine ⟨?_, ?_, by decide⟩ <;> rfl

/-- Claim C3 as amended: the key-direction round trip
query_label_id (convert_id_to_label label_id) = label_id holds provided
the mapping-table label strings are pairwise distinct; the value-direction
round trip convert_id_to_label (query_label_id label) = label holds
unconditionally for every label present as a value. -/
theorem c3_roundtrip_amended (ip port : String) (tid : Int) (labels : List String) :
    (labels.Nodup → ∀ (i : Int) (lab : String),
      (TargetDetectionClient.init ip port tid labels).convert_id_to_label i = .ok lab →
      (TargetDetectionClient.init ip port tid labels).query_label_id lab = .ok i)
    ∧ (∀ lab, lab ∈ labels →
      ∃ i : Int, (TargetDetectionClient.init ip port tid labels).query_label_id lab = .ok i
        ∧ (TargetDetectionClient.init ip port tid labels).convert_id_to_label i = .ok lab) := by
  have htab : (TargetDetectionClient.init ip port tid labels).result_mapping_table =
      mappingTableFrom 0 labels := by
    simp [TargetDetectionClient.init, mappingTableOfLabels_eq]
  constructor
  · intro hnd i lab hconv
    unfold TargetDetectionClient.convert_id_to_label at hconv
    rw [htab] at hconv
    rcases hres : pyDictGet (mappingTableFrom 0 labels) i with _ | lab2
    · rw [hres] at hconv
      exact absurd hconv (by simp)
    · rw [hres] at hconv
      have hlab : lab2 = lab := Except.ok.inj hconv
      subst hlab
      unfold TargetDetectionClient.query_label_id
      rw [htab, find?_of_pyDictGet hnd hres]
  · intro lab hmem
    obtain ⟨i, hf, hg⟩ := @find?_of_mem_labels labels 0 lab hmem
    refine ⟨i, ?_, ?_⟩
    · unfold TargetDetectionClient.query_label_id
      rw [htab, hf]
    · unfold TargetDetectionClient.convert_id_to_label
      rw [htab, hg]

/-- Witness for the amended C3 at the concrete duplicate-free label list
cat, dog. -/
theorem c3_roundtrip_amended_witness :
    (TargetDetectionClient.init "10.0.0.1" "50052" 1 wDetLabels).query_label_id "dog" =
      .ok 1
    ∧ (∃ i : Int,
        (TargetDetectionClient.init "10.0.0.1" "50052" 1 wDetLabels).query_label_id "cat" =
          .ok i
        ∧ (TargetDetectionClient.init "10.0.0.1" "50052" 1 wDetLabels).convert_id_to_label i =
          .ok "cat") :=
  ⟨(c3_roundtrip_amended "10.0.0.1" "50052" 1 wDetLabels).1 (by decide) 1 "dog" rfl,
   (c3_roundtrip_amended "10.0.0.1" "50052" 1 wDetLabels).2 "cat" (by decide)⟩

/-- Claim C4 (code bug): the renderer get_image_size_by_image_id never
reaches the remote operation -- the request construction raises on the
unknown keyword task_id -- and returns (0, 0) with an empty request trace
for every input, even a successful response carrying a nonzero size. -/
theorem c4_size_never_calls (task_id image_id : Int)
    (call : Except String GetImageByImageIdResponse) :
    ImageRendererClient.get_image_size_by_image_id task_id image_id call = ((0, 0), []) :=
  renderer_size_eval task_id image_id call

/-- Claim C5: on identical successful responses the two image clients
extract the same (image id, buffer) pair; they differ only on failure,
where the harmony client raises and the renderer client returns the
sentinel (0, empty bytes). -/
theorem c5_buffer_clients_agree (hc : ImageHarmonyClient)
    (task_id image_id width height : Int) (format : String) (params : List Int)
    (resp : GetImageByImageIdResponse) :
    (resp.response.code = 200 →
      (hc.get_image_buffer_by_image_id image_id width height format params (.ok resp)).1 =
        .ok (ImageRendererClient.get_image_buffer_by_image_id task_id image_id width height
          format params (.ok resp)).1)
    ∧ (resp.response.code ≠ 200 →
      (hc.get_image_buffer_by_image_id image_id width height format params (.ok resp)).1 =
        .error (hc.bufferErrMsg resp.response.message)
      ∧ (ImageRendererClient.get_image_buffer_by_image_id task_id image_id width height
          format params (.ok resp)).1 = (0, [])) := by
  constructor
  · intro h
    rw [harmony_buffer_ok hc image_id width height format params resp h,
      renderer_buffer_ok task_id image_id width height format params resp h]
  · intro h
    exact ⟨harmony_buffer_err hc image_id width height format params resp h,
      renderer_buffer_err task_id image_id width height format params resp h⟩

/-- Witness for C5 at one successful and one failing concrete response. -/
theorem c5_buffer_clients_agree_witness :
    (wOkIResp.response.code = 200
      ∧ (wHarmony.get_image_buffer_by_image_id 7 640 480 ".jpg" [1, 80] (.ok wOkIResp)).1 =
        .ok (ImageRendererClient.get_image_buffer_by_image_id 3 7 640 480 ".jpg" [1, 80]
          (.ok wOkIResp)).1)
    ∧ (wBadIResp.response.code ≠ 200
      ∧ (wHarmony.get_image_buffer_by_image_id 7 640 480 ".jpg" [1, 80] (.ok wBadIResp)).1 =
          .error (wHarmony.bufferErrMsg "boom")
      ∧ (ImageRendererClient.get_image_buffer_by_image_id 3 7 640 480 ".jpg" [1, 80]
          (.ok wBadIResp)).1 = (0, [])) :=
  ⟨⟨rfl, (c5_buffer_clients_agree wHarmony 3 7 640 480 ".jpg" [1, 80] wOkIResp).1 rfl⟩,
   ⟨by decide, (c5_buffer_clients_agree wHarmony 3 7 640 480 ".jpg" [1, 80] wBadIResp).2
      (by decide)⟩⟩

/-- Claim C6: for both image clients, the call form without the optional
format and params arguments equals -- same request sent, same result --
the call with format .jpg and params [cv2.IMWRITE_JPEG_QUALITY, 80]. -/
theorem c6_default_args (hc : ImageHarmonyClient) (task_id image_id width height : Int)
    (call : Except String GetImageByImageIdResponse) :
    hc.get_image_buffer_by_image_id_defaulted image_id width height call =
      hc.get_image_buffer_by_image_id image_id width height ".jpg"
        [IMWRITE_JPEG_QUALITY, 80] call
    ∧ ImageRendererClient.get_image_buffer_by_image_id_defaulted task_id image_id
        width height call =
      ImageRendererClient.get_image_buffer_by_image_id task_id image_id width height
        ".jpg" [IMWRITE_JPEG_QUALITY, 80] call :=
  ⟨rfl, rfl⟩

/-- Counterexample to C7 as stated: disconnect_image_loader is a public
call method, yet on a fresh client (stored connection id 0) it performs
zero remote stub invocations, not exactly one. -/
theorem c7_exactly_one_counterexample :
    ((ImageHarmonyClient.init "127.0.0.1" "50051").disconnect_image_loader
      (.ok ⟨⟨200, "ok"⟩⟩)).2.2.length = 0
    ∧ ((ImageHarmonyClient.init "127.0.0.1" "50051").disconnect_image_loader
      (.ok ⟨⟨200, "ok"⟩⟩)).2.2.length ≠ 1 :=
  ⟨rfl, by decide⟩

/-- Claim C7 as amended: every public call method performs at most one
remote stub invocation per call, and exactly one except (a)
disconnect_image_loader when the stored connection id is 0, which returns
without calling, and (b) the renderer get_image_size_by_image_id, whose
request construction fails before the stub call, so it makes none. -/
theorem c7_at_most_one_call {Img : Type} (empty_image : Img)
    (hc : ImageHarmonyClient) (dc : TargetDetectionClient) (tc : TargetTrackingClient)
    (lh image_id width height task_id : Int) (format : String) (params : List Int)
    (only_the_last : Bool) (stid sname sip sport : String)
    (args : List (String × String))
    (ccall : Except String ConnectImageLoaderResponse)
    (dcall : Except String DisconnectImageLoaderResponse)
    (icall : Except String GetImageByImageIdResponse)
    (mcall : Except String GetResultMappingTableResponse)
    (rcall : Except String GetResultIndexByImageIdResponse)
    (tcall : Except String TrackGetResultByImageIdResponse)
    (bcall : Except String CoordBasicResponse)
    (ccall2 : Except String InformCurrentServiceInfoResponse)
    (imdecode : List Nat → Option Img) :
    (hc.connect_image_loader lh ccall).2.2.length = 1
    ∧ (hc.disconnect_image_loader dcall).2.2.length =
        (if hc.connectionId = 0 then 0 else 1)
    ∧ (hc.get_image_buffer_by_image_id image_id width height format params icall).2.length = 1
    ∧ (hc.get_image_by_image_id image_id width height format params icall imdecode).2.length = 1
    ∧ (hc.get_image_size_by_image_id image_id icall).2.length = 1
    ∧ (ImageRendererClient.get_image_buffer_by_image_id task_id image_id width height
        format params icall).2.length = 1
    ∧ (ImageRendererClient.get_image_by_image_id empty_image task_id image_id width height
        format params icall imdecode).2.length = 1
    ∧ (ImageRendererClient.get_image_size_by_image_id task_id image_id icall).2.length = 0
    ∧ (dc.get_result_mapping_table mcall).2.length = 1
    ∧ (dc.get_result_by_image_id image_id rcall).2.length = 1
    ∧ (tc.get_result_by_image_id image_id only_the_last tcall).2.length = 1
    ∧ (ServiceCoordinatorClient.inform_previous_service_info stid sname sip sport args
        bcall).2.length = 1
    ∧ (ServiceCoordinatorClient.inform_current_service_info stid args ccall2).2.length = 1
    ∧ (ServiceCoordinatorClient.start stid bcall).2.length = 1
    ∧ (ServiceCoordinatorClient.stop stid bcall).2.length = 1 := by
  refine ⟨?_, ?_, ?_, ?_, ?_, ?_, ?_, ?_, ?_, ?_, ?_, ?_, ?_, ?_, ?_⟩
  · rw [connect_trace]; rfl
  · rw [disconnect_trace]
    by_cases h0 : hc.connectionId = 0 <;> simp [h0]
  · rw [harmony_buffer_trace]; rfl
  · rw [harmony_get_image_trace]; rfl
  · rw [harmony_size_trace]; rfl
  · rw [renderer_buffer_trace]; rfl
  · rw [renderer_get_image_trace]; rfl
  · rw [renderer_size_eval]; rfl
  · rw [det_mapping_trace]; rfl
  · rw [det_result_trace]; rfl
  · rw [track_result_trace]; rfl
  · rw [coord_previous_trace]; rfl
  · rw [coord_current_trace]; rfl
  · rw [coord_start_trace]; rfl
  · rw [coord_stop_trace]; rfl

/-- Claim C8: a fresh TargetTrackingClient has an empty filter, any
sequence of non-add filter operations keeps it empty, and with an empty
filter every successful response yields an empty dict; a fresh
TargetDetectionClient filter accepts exactly the ids 0..n-1 (n the
mapping-table size), so a successful response whose labelIds are all in
range passes through whole. -/
theorem c8_fresh_filters (ip port : String) (tid : Int) (labels : List String)
    (image_id : Int) (only_the_last : Bool)
    (ops : List TrackingFilterOp)
    (tresp : TrackGetResultByImageIdResponse)
    (dresp : GetResultIndexByImageIdResponse)
    (hops : ops.all (fun o => !o.isAdd) = true)
    (htr : tresp.response.code = 200)
    (hdr : dresp.response.code = 200)
    (hrange : ∀ r ∈ dresp.results, 0 ≤ r.labelId ∧ r.labelId < (labels.length : Int)) :
    ((TargetTrackingClient.init ip port tid).filter.filter = ∅)
    ∧ (((TargetTrackingClient.init ip port tid).filter.applyOps ops).filter = ∅)
    ∧ (∀ t : TargetTrackingClient, t.filter.filter = ∅ →
        (t.get_result_by_image_id image_id only_the_last (.ok tresp)).1 = .ok [])
    ∧ (∀ i : Int, (TargetDetectionClient.init ip port tid labels).filter.check i = true ↔
        0 ≤ i ∧ i < (labels.length : Int))
    ∧ (((TargetDetectionClient.init ip port tid labels).get_result_by_image_id image_id
        (.ok dresp)).1 = .ok (dresp.results.map detResultOfMsg)) := by
  have hlen : (mappingTableOfLabels labels).length = labels.length := by
    rw [mappingTableOfLabels_eq, mappingTableFrom_length]
  have hcheck : ∀ i : Int,
      (TargetDetectionClient.init ip port tid labels).filter.check i = true ↔
      0 ≤ i ∧ i < (labels.length : Int) := by
    intro i
    show (DetectionFilter.init (mappingTableOfLabels labels).length).check i = true ↔ _
    rw [hlen]
    exact detectionFilter_check_init labels.length i
  refine ⟨rfl, ?_, ?_, hcheck, ?_⟩
  · exact trackingFilter_applyOps_empty ops _ rfl hops
  · intro t ht
    unfold TargetTrackingClient.get_result_by_image_id
    dsimp only
    rw [if_neg (by simp [htr]), trackFold_empty t.filter ht]
  · unfold TargetDetectionClient.get_result_by_image_id
    dsimp only
    rw [if_neg (by simp [hdr])]
    have : dresp.results.filter
        (fun r => (TargetDetectionClient.init ip port tid labels).filter.check r.labelId) =
        dresp.results := by
      rw [List.filter_eq_self]
      intro r hr
      exact (hcheck r.labelId).mpr (hrange r hr)
    rw [this]

/-- Witness for C8 at concrete responses, labels and a non-add op list. -/
theorem c8_fresh_filters_witness :
    ((TargetTrackingClient.init "10.0.0.1" "50053" 2).get_result_by_image_id 5 true
      (.ok wTrackResp)).1 = .ok []
    ∧ ((TargetDetectionClient.init "10.0.0.1" "50052" 1 wDetLabels).get_result_by_image_id 5
      (.ok wDetResp2)).1 = .ok (wDetResp2.results.map detResultOfMsg) := by
  have h := c8_fresh_filters "10.0.0.1" "50052" 1 wDetLabels 5 true
    [TrackingFilterOp.remove "x", TrackingFilterOp.clear] wTrackResp wDetResp2
    (by decide) (by decide) (by decide) (by decide)
  exact ⟨h.2.2.1 (TargetTrackingClient.init "10.0.0.1" "50053" 2) rfl, h.2.2.2.2⟩

/-- Claim C9: connect_image_loader is atomic on failure -- on an RpcError
or a non-success status the method raises and the client state (hence the
stored connection id) is unchanged; only on a success status is the
connection id updated to the response connectionId. -/
theorem c9_connect_atomic (c : ImageHarmonyClient) (lh : Int)
    (call : Except String ConnectImageLoaderResponse) :
    (∀ e, call = .error e → (c.connect_image_loader lh call).2.1 = c)
    ∧ (∀ resp, call = .ok resp → resp.response.code ≠ 200 →
        (c.connect_image_loader lh call).1 =
          .error (c.connectErrMsg lh resp.response.message)
        ∧ (c.connect_image_loader lh call).2.1 = c)
    ∧ (∀ resp, call = .ok resp → resp.response.code = 200 →
        (c.connect_image_loader lh call).2.1 =
          { c with connectionId := resp.connectionId }) := by
  refine ⟨?_, ?_, ?_⟩
  · rintro e rfl
    rfl
  · rintro resp rfl h
    constructor
    · unfold ImageHarmonyClient.connect_image_loader
      dsimp only
      rw [if_pos h]
    · unfold ImageHarmonyClient.connect_image_loader
      dsimp only
      rw [if_pos h]
  · rintro resp rfl h
    unfold ImageHarmonyClient.connect_image_loader
    dsimp only
    rw [if_neg (by simp [h])]

/-- Witness for C9 at a failing and a successful concrete response. -/
theorem c9_connect_atomic_witness :
    ((wHarmony.connect_image_loader 42 (.ok ⟨wMetaBad, 9⟩)).2.1 = wHarmony)
    ∧ ((wHarmony.connect_image_loader 42 (.ok ⟨wMetaOk, 9⟩)).2.1 =
        { wHarmony with connectionId := 9 }) :=
  ⟨((c9_connect_atomic wHarmony 42 (.ok ⟨wMetaBad, 9⟩)).2.1 ⟨wMetaBad, 9⟩ rfl
      (by decide)).2,
   (c9_connect_atomic wHarmony 42 (.ok ⟨wMetaOk, 9⟩)).2.2 ⟨wMetaOk, 9⟩ rfl rfl⟩

/-- Claim C10: a fresh client stores connection id 0; with stored
connection id 0 disconnect_image_loader returns at once, making no remote
call and leaving the whole client state unchanged; a successful
disconnect resets the stored connection id to 0, so a second disconnect
is such a no-op. -/
theorem c10_disconnect_noop (ip port : String) (c : ImageHarmonyClient)
    (call : Except String DisconnectImageLoaderResponse) :
    ((ImageHarmonyClient.init ip port).connectionId = 0)
    ∧ (c.connectionId = 0 → c.disconnect_image_loader call = (.ok (), c, []))
    ∧ (∀ resp, call = .ok resp → resp.response.code = 200 → c.connectionId ≠ 0 →
        (c.disconnect_image_loader call).2.1 = { c with connectionId := 0 }) := by
  refine ⟨rfl, ?_, ?_⟩
  · intro h0
    unfold ImageHarmonyClient.disconnect_image_loader
    rw [if_pos h0]
  · rintro resp rfl h200 hne
    unfold ImageHarmonyClient.disconnect_image_loader
    rw [if_neg hne]
    dsimp only
    rw [if_neg (by simp [h200])]

/-- Witness for C10: the no-op on a fresh client and the reset after a
successful disconnect on a connected client. -/
theorem c10_disconnect_noop_witness :
    ((ImageHarmonyClient.init "127.0.0.1" "50051").disconnect_image_loader (.ok ⟨wMetaOk⟩) =
      (.ok (), ImageHarmonyClient.init "127.0.0.1" "50051", []))
    ∧ ((wHarmony.disconnect_image_loader (.ok ⟨wMetaOk⟩)).2.1 =
        { wHarmony with connectionId := 0 }) :=
  ⟨(c10_disconnect_noop "127.0.0.1" "50051" (ImageHarmonyClient.init "127.0.0.1" "50051")
      (.ok ⟨wMetaOk⟩)).2.1 rfl,
   (c10_disconnect_noop "x" "y" wHarmony (.ok ⟨wMetaOk⟩)).2.2 ⟨wMetaOk⟩ rfl rfl
      (by decide)⟩
